import Mathlib

/-!
Shallow embedding of `media_processing/utils/algorithmic_art.py`.

The module is a pure, synchronous raster generator.  We embed it as follows:

* Python machine floats are modelled as exact rationals (`ℚ`).  The library
  trigonometric / square-root functions (`math.cos`, `math.sin`, `math.sqrt`)
  are threaded through as explicit oracle parameters `cosF sinF sqrtF : ℚ → ℚ`,
  and the float value of `math.pi` as a parameter `piQ : ℚ`; every theorem that
  does not depend on their concrete values quantifies over them.
* Python `int(x)` (truncation toward zero) is `pythonInt`; Python `//` on ints
  (floor division) is `Int.fdiv`; Python `%` on ints is `Int.emod`.
* The global `random` module is an explicit `RandomSource`: a stream of
  `random.random()` draws and a stream of `random.randint` draws, indexed by
  the order in which the generator consumes them.
* Exceptions (`ValueError`, `ZeroDivisionError`, `IndexError`, and errors
  raised inside the Pillow image library) are modelled with `Except GenError`.
* A raster is its dimensions together with a pixel-colour function.  The
  Pillow drawing primitives are modelled as draw operations folded over in
  program order; their rasterisation is idealised (an ellipse with a square
  bounding box fills the closed integer disk, a convex polygon fills the
  points weakly inside all its edges, a line of width w covers the points
  within distance w/2 of the segment).  Every theorem below only inspects
  pixels where these idealisations agree with any reasonable rasteriser
  (pixels at a shape's centre or far outside all shapes).
-/

/-- An RGB colour triple.  Components are Python ints (ℤ): the source can in
principle produce negative components (via `int` of a negative float). -/
abbrev Color := ℤ × ℤ × ℤ

/-- Errors the source can raise.  The Python code defines no error classes of
its own: it raises `ValueError` (bad hex digits in `_hex_to_rgb`, unknown
pattern id in `generate_algorithmic_art`), hits `ZeroDivisionError` /
`IndexError` in degenerate parameter cases, and the Pillow library raises
`ValueError` for a negative image size or an unrecognised colour name. -/
inductive GenError where
  | unknownPattern (requested : String) (available : List String)
  | valueErrorBadHex
  | zeroDivisionError
  | indexError
  | imageSizeValueError
  | unknownColorName (name : String)
  deriving DecidableEq

/-- Python `int()` applied to a float: truncation toward zero. -/
def pythonInt (q : ℚ) : ℤ := Int.tdiv q.num (q.den : ℤ)

/-- Checked rational division: Python raises `ZeroDivisionError` on a zero
denominator where Lean's field division would silently return 0. -/
def qdivE (a b : ℚ) : Except GenError ℚ :=
  if b = 0 then .error .zeroDivisionError else .ok (a / b)

/-- Value of one hexadecimal digit, case insensitive, as accepted by
Python `int(s, 16)` for plain digit strings. -/
def hexVal (c : Char) : Option ℕ :=
  if '0' ≤ c ∧ c ≤ '9' then some (c.toNat - '0'.toNat)
  else if 'a' ≤ c ∧ c ≤ 'f' then some (c.toNat - 'a'.toNat + 10)
  else if 'A' ≤ c ∧ c ≤ 'F' then some (c.toNat - 'A'.toNat + 10)
  else none

/-- Python `int(s, 16)` on a slice: fails on the empty string and on any
non-hex-digit character.  (Python additionally accepts surrounding
whitespace, a sign, and underscores; none of the inputs reasoned about below
contain those.) -/
def parseHexGroup (cs : List Char) : Except GenError ℕ :=
  if cs.isEmpty then .error .valueErrorBadHex
  else cs.foldlM (fun acc c =>
    match hexVal c with
    | some v => .ok (16 * acc + v)
    | none => .error .valueErrorBadHex) 0

/-- `AlgorithmicArtGenerator._hex_to_rgb`: strips every leading `#`
(`str.lstrip`), then parses the three slices `[0:2]`, `[2:4]`, `[4:6]`.
Characters past index 6 are silently ignored, exactly as in the source. -/
def hex_to_rgb (s : String) : Except GenError Color := do
  let cs := s.data.dropWhile (fun c => c = '#')
  let r ← parseHexGroup (cs.take 2)
  let g ← parseHexGroup ((cs.drop 2).take 2)
  let b ← parseHexGroup ((cs.drop 4).take 2)
  .ok ((r : ℤ), (g : ℤ), (b : ℤ))

/-- `colorsys.hsv_to_rgb`, literally transcribed (note `int()` truncation in
the sector index and the Python `%` on the possibly negative sector). -/
def hsv_to_rgb (h s v : ℚ) : ℚ × ℚ × ℚ :=
  if s = 0 then (v, v, v)
  else
    let i0 : ℤ := pythonInt (h * 6)
    let f : ℚ := h * 6 - (i0 : ℚ)
    let p := v * (1 - s)
    let q := v * (1 - s * f)
    let t := v * (1 - s * (1 - f))
    let i := Int.emod i0 6
    if i = 0 then (v, t, p)
    else if i = 1 then (q, v, p)
    else if i = 2 then (p, v, t)
    else if i = 3 then (p, q, v)
    else if i = 4 then (t, p, v)
    else (v, p, q)

/-- The idiom `tuple(int(c * 255) for c in rgb)` used by every generator. -/
def scale255 (c : ℚ × ℚ × ℚ) : Color :=
  (pythonInt (c.1 * 255), pythonInt (c.2.1 * 255), pythonInt (c.2.2 * 255))

/-- HSV colour scaled to 0–255 integer channels. -/
def hsvColor (h s v : ℚ) : Color := scale255 (hsv_to_rgb h s v)

/-- Python `range(a, b)` as a list of integers. -/
def intRange (a b : ℤ) : List ℤ := (List.range (b - a).toNat).map (fun k => a + (k : ℤ))

/-- Python `range(n, 0, -1)`: `n, n-1, …, 1` (empty for `n ≤ 0`). -/
def descRange (n : ℤ) : List ℤ := (List.range n.toNat).map (fun k => n - (k : ℤ))

/-- The process-wide `random` module, made explicit: `rand k` is the value of
the k-th `random.random()` call a generator makes (a float in [0,1)), and
`randInt k a b` the value of its k-th `random.randint(a, b)` call. -/
structure RandomSource where
  rand : ℕ → ℚ
  randInt : ℕ → ℤ → ℤ → ℤ

/-- One Pillow drawing call, in program order. -/
inductive DrawOp where
  | diskOp (cx cy rad : ℤ) (col : Color)
  | polyOp (pts : List (ℤ × ℤ)) (fill : Color) (outl : Option Color)
  | lineOp (x0 y0 x1 y1 : ℤ) (col : Color) (w : ℕ)
  | pointOp (px py : ℤ) (col : Color)

/-- Squared distance from pixel `(x, y)` to the segment `(x0,y0)-(x1,y1)` is
at most `r2`.  Used to idealise stroked lines and polygon outlines. -/
def segDistLE (x0 y0 x1 y1 x y : ℤ) (r2 : ℚ) : Bool :=
  let dx := x1 - x0
  let dy := y1 - y0
  let l2 := dx * dx + dy * dy
  if l2 = 0 then decide ((((x - x0)^2 + (y - y0)^2 : ℤ) : ℚ) ≤ r2)
  else
    let tc : ℚ := max 0 (min 1 ((((x - x0) * dx + (y - y0) * dy : ℤ) : ℚ) / (l2 : ℚ)))
    let fx : ℚ := (x0 : ℚ) + tc * (dx : ℚ)
    let fy : ℚ := (y0 : ℚ) + tc * (dy : ℚ)
    decide ((((x : ℚ) - fx)^2 + ((y : ℚ) - fy)^2) ≤ r2)

/-- z-component of the cross product of `(ax, ay)` and `(bx, bz)`. -/
def crossZ (ax ay bx bz : ℤ) : ℤ := ax * bz - ay * bx

/-- Consecutive edges of a polygon (closing back to the first vertex). -/
def polyEdges (pts : List (ℤ × ℤ)) : List ((ℤ × ℤ) × (ℤ × ℤ)) :=
  pts.zip (pts.drop 1 ++ pts.take 1)

/-- Weak containment in a convex polygon: the point is on the same side of
every directed edge.  (The source only fills convex hexagons.) -/
def insideConvexPoly (pts : List (ℤ × ℤ)) (x y : ℤ) : Bool :=
  let es := polyEdges pts
  es.all (fun e => 0 ≤ crossZ (e.2.1 - e.1.1) (e.2.2 - e.1.2) (x - e.1.1) (y - e.1.2)) ||
  es.all (fun e => crossZ (e.2.1 - e.1.1) (e.2.2 - e.1.2) (x - e.1.1) (y - e.1.2) ≤ 0)

/-- A width-1 polygon outline covers the pixels within distance 1/2 of some
edge (idealised Bresenham stroke). -/
def onPolyOutline (pts : List (ℤ × ℤ)) (x y : ℤ) : Bool :=
  (polyEdges pts).any (fun e => segDistLE e.1.1 e.1.2 e.2.1 e.2.2 x y (1/4))

/-- Effect of one drawing call on one pixel (later calls overwrite earlier
ones; Pillow strokes a polygon's outline after filling it). -/
def renderOp (acc : Color) (op : DrawOp) (x y : ℤ) : Color :=
  match op with
  | .diskOp cx cy rad col =>
      if (x - cx)^2 + (y - cy)^2 ≤ rad^2 then col else acc
  | .polyOp pts fill outl =>
      match outl with
      | some oc =>
          if onPolyOutline pts x y then oc
          else if insideConvexPoly pts x y then fill else acc
      | none => if insideConvexPoly pts x y then fill else acc
  | .lineOp x0 y0 x1 y1 col w =>
      if segDistLE x0 y0 x1 y1 x y (((w : ℚ)^2) / 4) then col else acc
  | .pointOp px py col => if x = px ∧ y = py then col else acc

/-- Colour of a pixel after replaying a list of drawing calls over the
background colour. -/
def renderOps (bg : Color) (ops : List DrawOp) (x y : ℤ) : Color :=
  ops.foldl (fun a op => renderOp a op x y) bg

/-- A finished raster: dimensions and the pixel function.  Two rasters are
byte-identical exactly when they are equal. -/
structure Raster where
  w : ℤ
  h : ℤ
  pix : ℤ → ℤ → Color

/-- Raster whose pixels replay `ops` over background `bg`. -/
def mkRaster (w h : ℤ) (bg : Color) (ops : List DrawOp) : Raster :=
  ⟨w, h, fun x y => renderOps bg ops x y⟩

/-- The background argument of `AlgorithmicArtGenerator.__init__` after line
20: a parsed RGB triple when the string starts with `#`, otherwise the string
itself, passed through verbatim to `Image.new`. -/
inductive BgColor where
  | rgb (c : Color)
  | named (s : String)

/-- Line 20 of the source: hex-parse the background only when it starts with
`#`; any other string bypasses `_hex_to_rgb` entirely. -/
def bgResolve (s : String) : Except GenError BgColor :=
  if s.startsWith "#" then Except.map BgColor.rgb (hex_to_rgb s)
  else .ok (BgColor.named s)

/-- Canvas construction (`__init__` lines 20-21).  Models the Pillow calls it
makes: `Image.new` raises `ValueError` for a negative dimension and resolves
a colour-name string through the library's name table (`colorMap`), raising
`ValueError` for an unknown name.  A zero dimension is accepted by Pillow. -/
def mkCanvasBg (colorMap : String → Option Color) (w h : ℤ) (bgStr : String) :
    Except GenError Color := do
  let bgc ← bgResolve bgStr
  if w < 0 ∨ h < 0 then .error .imageSizeValueError
  else
    match bgc with
    | .rgb c => .ok c
    | .named s =>
        match colorMap s with
        | some c => .ok c
        | none => .error (.unknownColorName s)

/-- `GeometricPatternGenerator.concentric_circles` as the list of ellipse
fills it performs, outermost first (`range(num_circles, 0, -1)`).  The
`custom` scheme re-parses `base_color` each iteration and can raise
`ValueError`, exactly as in the source. -/
def concentric_circles (w h nC : ℤ) (scheme : String) (base : String) :
    Except GenError (List DrawOp) :=
  let cx := Int.fdiv w 2
  let cy := Int.fdiv h 2
  let maxR := Int.fdiv (min w h) 2
  (descRange nC).mapM (fun i => do
    let radius := Int.fdiv (maxR * i) nC
    let frac : ℚ := (i : ℚ) / (nC : ℚ)
    let col : Color ←
      match scheme with
      | "rainbow" => Except.ok (hsvColor frac (4/5) (9/10))
      | "monochrome" =>
          let g := pythonInt (255 * frac)
          Except.ok ((g, g, g) : Color)
      | "custom" =>
          Except.map
            (fun brgb : Color =>
              ((pythonInt ((brgb.1 : ℚ) * frac), pythonInt ((brgb.2.1 : ℚ) * frac),
                pythonInt ((brgb.2.2 : ℚ) * frac)) : Color))
            (hex_to_rgb base)
      | _ => Except.ok (((0 : ℤ), pythonInt (255 * frac), (255 : ℤ)) : Color)
    Except.ok (DrawOp.diskOp cx cy radius col))

/-- `GeometricPatternGenerator.spiral_circles`: `num_circles` disks along a
spiral (note Python precedence: `10 + (i/n)*m // 3` floor-divides the float
product by 3 before adding 10). -/
def spiral_circles (piQ : ℚ) (cosF sinF : ℚ → ℚ) (w h nC turns : ℤ) : List DrawOp :=
  let cx := Int.fdiv w 2
  let cy := Int.fdiv h 2
  (List.range nC.toNat).map (fun i =>
    let frac : ℚ := ((i : ℤ) : ℚ) / (nC : ℚ)
    let angle : ℚ := frac * (turns : ℚ) * 2 * piQ
    let radius : ℚ := 10 + ((Rat.floor (frac * ((min w h : ℤ) : ℚ)) : ℤ) : ℚ) / 3
    let x := cx + pythonInt (radius * cosF angle)
    let y := cy + pythonInt (radius * sinF angle)
    let csize : ℤ := 5 + pythonInt (20 * frac)
    DrawOp.diskOp x y csize (hsvColor frac (4/5) (9/10)))

/-- Exact stand-ins for the six values `cos(math.pi / 3 * i)` computed with
IEEE doubles in `_hexagon_points`; the cosines are idealised to exact halves
and the sines to the 16-digit decimal double of ±√3/2.  For the hexagon
sizes reasoned about below, `int(size * c)` agrees with the float
computation. -/
def hexCosQ (i : ℕ) : ℚ := [(1 : ℚ), 1/2, -1/2, -1, -1/2, 1/2].getD i 0

/-- Sine table for `_hexagon_points`; see `hexCosQ`. -/
def hexSinQ (i : ℕ) : ℚ :=
  [(0 : ℚ), 8660254037844386/10000000000000000, 8660254037844386/10000000000000000, 0,
   -8660254037844386/10000000000000000, -8660254037844386/10000000000000000].getD i 0

/-- `GeometricPatternGenerator._hexagon_points`. -/
def hexagon_points (x y s : ℤ) : List (ℤ × ℤ) :=
  (List.range 6).map (fun i =>
    (x + pythonInt ((s : ℚ) * hexCosQ i), y + pythonInt ((s : ℚ) * hexSinQ i)))

/-- The 16-digit decimal value of the double `math.sqrt(3)`. -/
def sqrt3Q : ℚ := 17320508075688772/10000000000000000

/-- `GeometricPatternGenerator.hexagonal_grid`: each hexagon in the row-major
grid gets an independently random hue (`random.random()`, one draw per
hexagon in iteration order) and a black outline.  A `hex_size` making either
loop divisor zero raises `ZeroDivisionError` as in Python. -/
def hexagonal_grid (rng : RandomSource) (w h hs : ℤ) :
    Except GenError (List DrawOp) := do
  let hexHeight := pythonInt ((hs : ℚ) * sqrt3Q)
  let nRows ← if hexHeight = 0 then Except.error GenError.zeroDivisionError
              else Except.ok (Int.fdiv h hexHeight)
  let colStep := Int.fdiv (hs * 3) 2
  let nCols ← if colStep = 0 then Except.error GenError.zeroDivisionError
              else Except.ok (Int.fdiv w colStep)
  let rows := intRange (-1) (nRows + 2)
  let cols := intRange (-1) (nCols + 2)
  let pairs := rows.flatMap (fun r => cols.map (fun c => (r, c)))
  Except.ok (pairs.enum.map (fun kp =>
    let x := kp.2.2 * colStep
    let y := kp.2.1 * hexHeight +
      (if Int.emod kp.2.2 2 = 1 then Int.fdiv hexHeight 2 else 0)
    DrawOp.polyOp (hexagon_points x y hs)
      (hsvColor (rng.rand kp.1) (7/10) (9/10)) (some ((0, 0, 0) : Color))))

/-- `FractalGenerator.sierpinski_triangle` (chaos game): the `depth`
parameter is accepted and ignored by the source; 50000 random midpoint steps
are plotted.  `random.choice` over the three corners is modelled as one
`randint` draw selecting corner 0, 1, or 2 (any other oracle value selects
the third corner). -/
def sierpinski_triangle (rng : RandomSource) (w h : ℤ) (depth : ℤ) : List DrawOp :=
  let p1 : ℤ × ℤ := (Int.fdiv w 2, 50)
  let p2 : ℤ × ℤ := (50, h - 50)
  let p3 : ℤ × ℤ := (w - 50, h - 50)
  let start : ℤ × ℤ := (rng.randInt 0 0 w, rng.randInt 1 0 h)
  let _ := depth
  (((List.range 50000).foldl (fun acc i =>
      let t := rng.randInt (2 + i) 0 2
      let tgt := if t = 0 then p1 else if t = 1 then p2 else p3
      let nxt : ℤ × ℤ :=
        (Int.fdiv (acc.1.1 + tgt.1) 2, Int.fdiv (acc.1.2 + tgt.2) 2)
      (nxt,
       DrawOp.pointOp nxt.1 nxt.2
         (hsvColor (((i % 1000 : ℕ) : ℚ) / 1000) (4/5) (9/10)) :: acc.2))
    (start, ([] : List DrawOp))).2).reverse

/-- One complex quadratic step `z ← z² + c` on exact rationals. -/
def mstep (c z : ℚ × ℚ) : ℚ × ℚ :=
  (z.1 * z.1 - z.2 * z.2 + c.1, 2 * z.1 * z.2 + c.2)

/-- Squared modulus; the loop guard `abs(z) <= 2` is `normSq z ≤ 4`. -/
def normSq (z : ℚ × ℚ) : ℚ := z.1 * z.1 + z.2 * z.2

/-- Number of iterations performed by the `while abs(z) <= 2 and
iteration < max_iter` loop, starting from `z` with `fuel` iterations left. -/
def mandelIter (c : ℚ × ℚ) : ℚ × ℚ → ℕ → ℕ
  | _, 0 => 0
  | z, Nat.succ n =>
      if normSq z ≤ 4 then mandelIter c (mstep c z) n + 1 else 0

/-- Pixel-to-plane map of `mandelbrot_set`:
`real = (x - w*0.7) / (w*0.25)`, `imag = (y - h*0.5) / (h*0.25)`. -/
def mandelC (w h x y : ℤ) : ℚ × ℚ :=
  (((x : ℚ) - (w : ℚ) * (7/10)) / ((w : ℚ) * (1/4)),
   ((y : ℚ) - (h : ℚ) * (1/2)) / ((h : ℚ) * (1/4)))

/-- Colour `mandelbrot_set` paints at a pixel: black when the iteration
count reaches `max_iter`, otherwise hue = iteration / max_iter. -/
def mandelColor (w h mi x y : ℤ) : Color :=
  let it := mandelIter (mandelC w h x y) (0, 0) mi.toNat
  if (it : ℤ) = mi then ((0, 0, 0) : Color)
  else hsvColor ((it : ℚ) / (mi : ℚ)) (4/5) (9/10)

/-- `FractalGenerator.mandelbrot_set` writes every in-bounds pixel exactly
once with `draw.point`, so it is embedded directly as a pixel function. -/
def mandelbrot_set (w h mi : ℤ) (bg : Color) : Raster :=
  ⟨w, h, fun x y =>
    if 0 ≤ x ∧ x < w ∧ 0 ≤ y ∧ y < h then mandelColor w h mi x y else bg⟩

/-- `FractalGenerator._draw_branch`, recursing on the `depth` counter.  (For
a negative starting depth the Python recursion never terminates; the
embedding returns no drawing operations in that unreachable configuration.) -/
def draw_branch (piQ : ℚ) (cosF sinF : ℚ → ℚ) (branchAngle : ℚ) :
    ℤ → ℤ → ℚ → ℚ → ℕ → List DrawOp
  | _, _, _, _, 0 => []
  | x, y, len, ang, Nat.succ n =>
      let ex := x + pythonInt (len * cosF (ang * piQ / 180))
      let ey := y + pythonInt (len * sinF (ang * piQ / 180))
      let col := hsvColor ((3 : ℚ)/10 - (((n + 1 : ℕ) : ℚ)) / 30) (7/10) (7/10)
      let wd := (max 1 (Int.fdiv ((n + 1 : ℕ) : ℤ) 2)).toNat
      DrawOp.lineOp x y ex ey col wd ::
        (draw_branch piQ cosF sinF branchAngle ex ey (len * (7/10)) (ang - branchAngle) n ++
         draw_branch piQ cosF sinF branchAngle ex ey (len * (7/10)) (ang + branchAngle) n)

/-- `FractalGenerator.recursive_tree`. -/
def recursive_tree (piQ : ℚ) (cosF sinF : ℚ → ℚ) (w h depth : ℤ) (angle : ℚ) :
    List DrawOp :=
  draw_branch piQ cosF sinF angle (Int.fdiv w 2) (h - 50)
    ((Int.fdiv (min w h) 5 : ℤ) : ℚ) (-90) depth.toNat

/-- One outer-loop step of `random_walk`: every walker takes a random step
(clamped into the canvas) and a width-2 line is drawn from its previous to
its new position in the walker's fixed hue. -/
def walkStep (rng : RandomSource) (w h nw : ℤ) (s : ℕ)
    (acc : List (ℤ × ℤ) × List DrawOp) : List (ℤ × ℤ) × List DrawOp :=
  let upd := acc.1.enum.map (fun p =>
    let dx := rng.randInt (2 * (s * nw.toNat + p.1)) (-2) 2
    let dy := rng.randInt (2 * (s * nw.toNat + p.1) + 1) (-2) 2
    let nx := max 0 (min (w - 1) (p.2.1 + dx))
    let ny := max 0 (min (h - 1) (p.2.2 + dy))
    (p, (nx, ny)))
  (upd.map (fun q => q.2),
   acc.2 ++ upd.map (fun q =>
     DrawOp.lineOp q.1.2.1 q.1.2.2 q.2.1 q.2.2
       (hsvColor ((q.1.1 : ℚ) / (nw : ℚ)) (7/10) (9/10)) 2))

/-- `GenerativePatternGenerator.random_walk`: all walkers start at the canvas
centre; `steps` outer iterations. -/
def random_walk (rng : RandomSource) (w h nw steps : ℤ) : List DrawOp :=
  let init : List (ℤ × ℤ) × List DrawOp :=
    (List.replicate nw.toNat (Int.fdiv w 2, Int.fdiv h 2), [])
  ((List.range steps.toNat).foldl (fun acc s => walkStep rng w h nw s acc) init).2

/-- Nearest-seed index for one Voronoi pixel: strict-improvement fold over
the seeds starting from `min_dist = inf, closest_seed = 0`. -/
def voronoiClosest (seeds : List (ℤ × ℤ)) (x y : ℤ) : ℕ :=
  (seeds.enum.foldl (fun acc sp =>
    let dist := (x - sp.2.1)^2 + (y - sp.2.2)^2
    match acc.1 with
    | none => (some dist, sp.1)
    | some m => if dist < m then (some dist, sp.1) else acc) (none, 0)).2

/-- `GenerativePatternGenerator.voronoi_diagram`.  The per-pixel 
`pixels[x, y] = colors[closest_seed]` lookup raises `IndexError` when the
colour list is empty; the pixel loops are replayed with `mapM` so the error
surfaces exactly when the source raises, then the raster is the same pixel
map with the black seed markers drawn on top. -/
def voronoi_diagram (rng : RandomSource) (w h np : ℤ) (bg : Color) :
    Except GenError Raster := do
  let seeds := (List.range np.toNat).map (fun k =>
    (rng.randInt (2 * k) 0 w, rng.randInt (2 * k + 1) 0 h))
  let colors := (List.range np.toNat).map (fun i =>
    hsvColor (((i : ℤ) : ℚ) / (np : ℚ)) (7/10) (9/10))
  let pixE : ℤ → ℤ → Except GenError Color := fun x y =>
    match colors.get? (voronoiClosest seeds x y) with
    | some c => .ok c
    | none => .error .indexError
  let _ ← (intRange 0 w).mapM (fun x => (intRange 0 h).mapM (fun y => pixE x y))
  Except.ok ⟨w, h, fun x y =>
    renderOps
      (if 0 ≤ x ∧ x < w ∧ 0 ≤ y ∧ y < h then ((pixE x y).toOption.getD bg) else bg)
      (seeds.map (fun sd => DrawOp.diskOp sd.1 sd.2 3 ((0, 0, 0) : Color))) x y⟩

/-- Colour of one `wave_interference` pixel: summed sines of the distances
to the sources, normalised by `2 * num_sources` (a `ZeroDivisionError` when
there are no sources). -/
def wavePixel (piQ : ℚ) (sinF sqrtF : ℚ → ℚ) (sources : List (ℤ × ℤ)) (ns : ℤ)
    (x y : ℤ) : Except GenError Color := do
  let amp := sources.foldl (fun a sd =>
    a + sinF (sqrtF ((((x - sd.1)^2 + (y - sd.2)^2 : ℤ)) : ℚ) / 40 * 2 * piQ)) 0
  let normA ← qdivE (amp + (ns : ℚ)) (2 * (ns : ℚ))
  Except.ok (hsvColor normA (4/5) (9/10))

/-- `GenerativePatternGenerator.wave_interference`: sources placed in the
central half of the canvas, every pixel coloured by normalised amplitude. -/
def wave_interference (piQ : ℚ) (sinF sqrtF : ℚ → ℚ) (rng : RandomSource)
    (w h ns : ℤ) (bg : Color) : Except GenError Raster := do
  let sources := (List.range ns.toNat).map (fun k =>
    (rng.randInt (2 * k) (Int.fdiv w 4) (Int.fdiv (3 * w) 4),
     rng.randInt (2 * k + 1) (Int.fdiv h 4) (Int.fdiv (3 * h) 4)))
  let _ ← (intRange 0 w).mapM (fun x => (intRange 0 h).mapM (fun y =>
    wavePixel piQ sinF sqrtF sources ns x y))
  Except.ok ⟨w, h, fun x y =>
    if 0 ≤ x ∧ x < w ∧ 0 ≤ y ∧ y < h then
      (wavePixel piQ sinF sqrtF sources ns x y).toOption.getD bg
    else bg⟩

/-- Consecutive points of the spirograph joined by width-2 line segments
with a rainbow hue sweep (`hue = i / len(points)`). -/
def lineSeq (pts : List (ℤ × ℤ)) : List DrawOp :=
  let n := pts.length
  (List.range (n - 1)).map (fun i =>
    let p := pts.getD i (0, 0)
    let q := pts.getD (i + 1) (0, 0)
    DrawOp.lineOp p.1 p.2 q.1 q.2 (hsvColor (((i : ℤ) : ℚ) / ((n : ℤ) : ℚ)) (4/5) (9/10)) 2)

/-- `SpirographGenerator.spirograph`.  The hypotrochoid needs `(R - r) / r`;
with `r = 0` the first loop iteration raises `ZeroDivisionError` (the ratio
is hoisted out of the point loop, where Python recomputes the same value
each iteration), and with `rotations ≤ 0` no iteration runs and nothing is
raised, exactly as in the source. -/
def spirograph (piQ : ℚ) (cosF sinF : ℚ → ℚ) (w h R r d rotations : ℤ) :
    Except GenError (List DrawOp) := do
  let cx := Int.fdiv w 2
  let cy := Int.fdiv h 2
  let steps := rotations * 360
  if steps ≤ 0 then Except.ok (lineSeq [])
  else do
    let ratioQ ← qdivE ((R : ℚ) - (r : ℚ)) (r : ℚ)
    let pts := (List.range steps.toNat).map (fun i =>
      let t : ℚ := ((i : ℤ) : ℚ) * 2 * piQ / 360
      (cx + pythonInt (((R : ℚ) - (r : ℚ)) * cosF t + (d : ℚ) * cosF (ratioQ * t)),
       cy + pythonInt (((R : ℚ) - (r : ℚ)) * sinF t - (d : ℚ) * sinF (ratioQ * t))))
    Except.ok (lineSeq pts)

/-- The keyword-parameter bag passed to `generate_algorithmic_art`; a `none`
field means the caller omitted the key and the per-pattern `params.get`
default applies. -/
structure Params where
  bg_color : Option String := none
  base_color : Option String := none
  num_circles : Option ℤ := none
  color_scheme : Option String := none
  turns : Option ℤ := none
  hex_size : Option ℤ := none
  depth : Option ℤ := none
  max_iter : Option ℤ := none
  angle : Option ℚ := none
  num_walkers : Option ℤ := none
  steps : Option ℤ := none
  num_points : Option ℤ := none
  num_sources : Option ℤ := none
  R : Option ℤ := none
  r : Option ℤ := none
  d : Option ℤ := none
  rotations : Option ℤ := none

/-- Keys of the `generators` dict in `generate_algorithmic_art`, in
insertion order; the unknown-pattern `ValueError` message enumerates them. -/
def validPatternIds : List String :=
  ["concentric_circles", "spiral_circles", "hexagonal_grid",
   "sierpinski_triangle", "mandelbrot_set", "recursive_tree",
   "random_walk", "voronoi_diagram", "wave_interference", "spirograph"]

/-- The factory `generate_algorithmic_art(pattern_type, size, **params)`.
`bg_color` and `base_color` are popped with defaults white / red; an unknown
pattern id raises `ValueError` listing the available ids before any canvas
is constructed; otherwise the square canvas is built (every dict entry
constructs it the same way, so it is hoisted before the dispatch) and the
selected generator runs with its own parameter defaults. -/
def generate_algorithmic_art (piQ : ℚ) (cosF sinF sqrtF : ℚ → ℚ)
    (colorMap : String → Option Color) (rng : RandomSource)
    (pattern_type : String) (size : ℤ) (params : Params) :
    Except GenError Raster :=
  let bgc := params.bg_color.getD "#FFFFFF"
  let basec := params.base_color.getD "#FF0000"
  if pattern_type ∈ validPatternIds then
    Except.bind (mkCanvasBg colorMap size size bgc) (fun bg =>
      match pattern_type with
      | "concentric_circles" =>
          Except.map (mkRaster size size bg)
            (concentric_circles size size (params.num_circles.getD 20)
              (params.color_scheme.getD "rainbow") basec)
      | "spiral_circles" =>
          Except.ok (mkRaster size size bg
            (spiral_circles piQ cosF sinF size size
              (params.num_circles.getD 50) (params.turns.getD 3)))
      | "hexagonal_grid" =>
          Except.map (mkRaster size size bg)
            (hexagonal_grid rng size size (params.hex_size.getD 30))
      | "sierpinski_triangle" =>
          Except.ok (mkRaster size size bg
            (sierpinski_triangle rng size size (params.depth.getD 7)))
      | "mandelbrot_set" =>
          Except.ok (mandelbrot_set size size (params.max_iter.getD 100) bg)
      | "recursive_tree" =>
          Except.ok (mkRaster size size bg
            (recursive_tree piQ cosF sinF size size (params.depth.getD 10)
              (params.angle.getD 25)))
      | "random_walk" =>
          Except.ok (mkRaster size size bg
            (random_walk rng size size (params.num_walkers.getD 5)
              (params.steps.getD 2000)))
      | "voronoi_diagram" =>
          voronoi_diagram rng size size (params.num_points.getD 20) bg
      | "wave_interference" =>
          wave_interference piQ sinF sqrtF rng size size
            (params.num_sources.getD 4) bg
      | _ =>
          Except.map (mkRaster size size bg)
            (spirograph piQ cosF sinF size size (params.R.getD 200)
              (params.r.getD 50) (params.d.getD 80) (params.rotations.getD 20)))
  else .error (.unknownPattern pattern_type validPatternIds)

/-- Pixel of a generation result (out-of-band colour for the error case;
theorems that read pixels also assert the call succeeded). -/
def pixAt (e : Except GenError Raster) (x y : ℤ) : Color :=
  match e with
  | .ok ra => ra.pix x y
  | .error _ => (-1, -1, -1)

/-- Whether a generation call succeeded. -/
def isOkE (e : Except GenError Raster) : Bool :=
  match e with
  | .ok _ => true
  | .error _ => false

/-- Zero oracle used to instantiate trig/sqrt parameters in concrete
witnesses whose patterns never consult them. -/
def zeroF : ℚ → ℚ := fun _ => 0

/-- Empty colour-name table for witnesses (no named colour is ever used). -/
def cmNone : String → Option Color := fun _ => none

/-- Constant random source used by witnesses. -/
def rngZero : RandomSource := ⟨fun _ => 0, fun _ _ _ => 0⟩

/-- A second random source, differing from `rngZero` in its
`random.random()` stream. -/
def rngHalf : RandomSource := ⟨fun _ => 1/2, fun _ _ _ => 0⟩

/-- The call of the spec's concentric-circles concrete scenario. -/
def c2call : Except GenError Raster :=
  generate_algorithmic_art 0 zeroF zeroF zeroF cmNone rngZero
    "concentric_circles" 100 {num_circles := some 5, color_scheme := some "monochrome"}

/-- Spirograph call with the degenerate wheel radius `r = 0`. -/
def c3call : Except GenError Raster :=
  generate_algorithmic_art 0 zeroF zeroF zeroF cmNone rngZero
    "spirograph" 256 {r := some 0}

/-- Voronoi call with zero seed points on a 1-pixel canvas. -/
def c5call : Except GenError Raster :=
  generate_algorithmic_art 0 zeroF zeroF zeroF cmNone rngZero
    "voronoi_diagram" 1 {num_points := some 0}

/-- Concentric-circles call with canvas size 0 and default parameters. -/
def c6call : Except GenError Raster :=
  generate_algorithmic_art 0 zeroF zeroF zeroF cmNone rngZero
    "concentric_circles" 0 {}

/-- Hexagonal-grid call on a 1-pixel canvas seen with one random stream. -/
def hexCallA : Except GenError Raster :=
  generate_algorithmic_art 0 zeroF zeroF zeroF cmNone rngZero "hexagonal_grid" 1 {}

/-- The same hexagonal-grid call seen with a different random stream. -/
def hexCallB : Except GenError Raster :=
  generate_algorithmic_art 0 zeroF zeroF zeroF cmNone rngHalf "hexagonal_grid" 1 {}

/-- The Mandelbrot call of the spec's concrete scenario. -/
def mandelCall : Except GenError Raster :=
  generate_algorithmic_art 0 zeroF zeroF zeroF cmNone rngZero
    "mandelbrot_set" 64 {max_iter := some 20}

/-- C2 (counterexample): in
`generate("concentric_circles", 100, num_circles=5, color_scheme="monochrome")`
the centre pixel (50,50) is not white — the descending loop draws the
innermost circle with index 1, whose monochrome gray is
`int(255 * 1/5) = 51`, so the centre is dark gray (51,51,51). -/
theorem C2_counterexample :
    pixAt c2call 50 50 = (51, 51, 51) ∧ pixAt c2call 50 50 ≠ (255, 255, 255) := by
  with_unfolding_all decide

/-- C2 (amended): the monochrome concentric-circles scenario paints the
centre pixel (50,50) in the darkest drawn gray (51,51,51) — the innermost
circle has loop index 1, mapping to near-minimal grayscale — while the
corner pixel (0,0), outside all circles, keeps the white background. -/
theorem C2_amended :
    isOkE c2call = true ∧
    pixAt c2call 50 50 = (51, 51, 51) ∧
    pixAt c2call 0 0 = (255, 255, 255) := by
  with_unfolding_all decide

/-- C4: for every pattern id not in the catalog,
`generate_algorithmic_art` fails with the unknown-pattern `ValueError`
whose payload enumerates all ten valid ids, for every size (even invalid
ones) and every parameter bag (even malformed colours) — so neither the
canvas construction nor any generator runs. -/
theorem C4_unknown_pattern (p : String) (hp : p ∉ validPatternIds) (piQ : ℚ)
    (cf sf qf : ℚ → ℚ) (cm : String → Option Color) (rg : RandomSource)
    (size : ℤ) (ps : Params) :
    generate_algorithmic_art piQ cf sf qf cm rg p size ps =
      .error (.unknownPattern p
        ["concentric_circles", "spiral_circles", "hexagonal_grid",
         "sierpinski_triangle", "mandelbrot_set", "recursive_tree",
         "random_walk", "voronoi_diagram", "wave_interference", "spirograph"]) := by
  unfold generate_algorithmic_art
  rw [if_neg hp]
  rfl

/-- C4 witness at the spec's concrete input `"not_a_real_pattern"`. -/
theorem C4_unknown_pattern_witness :
    "not_a_real_pattern" ∉ validPatternIds ∧
    generate_algorithmic_art 0 zeroF zeroF zeroF cmNone rngZero
        "not_a_real_pattern" 256 {} =
      .error (.unknownPattern "not_a_real_pattern"
        ["concentric_circles", "spiral_circles", "hexagonal_grid",
         "sierpinski_triangle", "mandelbrot_set", "recursive_tree",
         "random_walk", "voronoi_diagram", "wave_interference", "spirograph"]) :=
  ⟨by decide,
   C4_unknown_pattern "not_a_real_pattern" (by decide) 0 zeroF zeroF zeroF
     cmNone rngZero 256 {}⟩

/-- C9 (counterexample): the malformed 9-character input `"#FF0000AA"` does
not fail — `_hex_to_rgb` silently ignores everything past the sixth hex
digit and returns (255,0,0). -/
theorem C9_counterexample : hex_to_rgb "#FF0000AA" = .ok (255, 0, 0) := by
  with_unfolding_all rfl

/-- C9 (amended): every well-formed `#RRGGBB` string (six hex digits after
the `#`) parses to the triple of its 2-digit groups — in particular
`"#FF0000" ↦ (255,0,0)` and `"#000000" ↦ (0,0,0)` — and a too-short or
non-hex input raises `ValueError`; but the validation is only this partial:
input past the sixth digit is silently ignored (see the counterexample),
and the failure is a plain `ValueError`, there being no `ParameterError`
class in the code. -/
theorem C9_amended (d1 d2 d3 d4 d5 d6 : Char) (v1 v2 v3 v4 v5 v6 : ℕ)
    (h1 : hexVal d1 = some v1) (h2 : hexVal d2 = some v2) (h3 : hexVal d3 = some v3)
    (h4 : hexVal d4 = some v4) (h5 : hexVal d5 = some v5) (h6 : hexVal d6 = some v6) :
    (hex_to_rgb (String.mk ['#', d1, d2, d3, d4, d5, d6]) =
      .ok (((16 * v1 + v2 : ℕ) : ℤ), ((16 * v3 + v4 : ℕ) : ℤ), ((16 * v5 + v6 : ℕ) : ℤ))) ∧
    hex_to_rgb "#FF0000" = .ok (255, 0, 0) ∧
    hex_to_rgb "#000000" = .ok (0, 0, 0) ∧
    hex_to_rgb "#FFF" = .error .valueErrorBadHex ∧
    hex_to_rgb "#GGHHII" = .error .valueErrorBadHex := by
  refine ⟨?_, by with_unfolding_all rfl, by with_unfolding_all rfl,
    by with_unfolding_all rfl, by with_unfolding_all rfl⟩
  have hd1 : ¬ (d1 = '#') := by
    intro e
    rw [e, show hexVal '#' = none from rfl] at h1
    cases h1
  unfold hex_to_rgb
  simp only [List.dropWhile, decide_eq_true_eq, if_pos rfl, hd1, decide_eq_false hd1]
  simp only [List.take, List.drop, parseHexGroup, List.isEmpty, List.foldlM,
    h1, h2, h3, h4, h5, h6]
  simp only [Bind.bind, Except.bind, Pure.pure, Except.pure]
  push_cast
  ring_nf

/-- C9 witness at the spec's round-trip inputs. -/
theorem C9_amended_witness :
    (hexVal 'F' = some 15 ∧ hexVal '0' = some 0) ∧
    ((hex_to_rgb (String.mk ['#', 'F', 'F', '0', '0', '0', '0']) =
      .ok (((16 * 15 + 15 : ℕ) : ℤ), ((16 * 0 + 0 : ℕ) : ℤ), ((16 * 0 + 0 : ℕ) : ℤ))) ∧
     hex_to_rgb "#FF0000" = .ok (255, 0, 0) ∧
     hex_to_rgb "#000000" = .ok (0, 0, 0) ∧
     hex_to_rgb "#FFF" = .error .valueErrorBadHex ∧
     hex_to_rgb "#GGHHII" = .error .valueErrorBadHex) :=
  ⟨⟨rfl, rfl⟩,
   C9_amended 'F' 'F' '0' '0' '0' '0' 15 15 0 0 0 0 rfl rfl rfl rfl rfl rfl⟩

/-- C10: a background string not starting with `#` bypasses the core's hex
parsing entirely — `__init__` passes it verbatim to `Image.new` — and any
failure for an unrecognised colour name is the image library's lookup
error, not a hex `ValueError` from this core. -/
theorem C10_bg_passthrough (s : String) (hs : s.startsWith "#" = false)
    (cm : String → Option Color) (w h : ℤ) (hw : ¬ w < 0) (hh : ¬ h < 0) :
    bgResolve s = .ok (BgColor.named s) ∧
    (cm s = none → mkCanvasBg cm w h s = .error (.unknownColorName s)) ∧
    (∀ c : Color, cm s = some c → mkCanvasBg cm w h s = .ok c) := by
  have hb : bgResolve s = .ok (BgColor.named s) := by
    unfold bgResolve
    rw [hs]
    rfl
  refine ⟨hb, ?_, ?_⟩
  · intro hcm
    unfold mkCanvasBg
    rw [hb]
    simp only [Bind.bind, Except.bind]
    rw [if_neg (not_or.mpr ⟨hw, hh⟩), hcm]
  · intro c hcm
    unfold mkCanvasBg
    rw [hb]
    simp only [Bind.bind, Except.bind]
    rw [if_neg (not_or.mpr ⟨hw, hh⟩), hcm]

/-- C10 witness at a colour-name background on a small canvas. -/
theorem C10_bg_passthrough_witness :
    ("blue".startsWith "#" = false ∧ ¬ (4 : ℤ) < 0) ∧
    (bgResolve "blue" = .ok (BgColor.named "blue") ∧
     (cmNone "blue" = none →
        mkCanvasBg cmNone 4 4 "blue" = .error (.unknownColorName "blue")) ∧
     (∀ c : Color, cmNone "blue" = some c → mkCanvasBg cmNone 4 4 "blue" = .ok c)) :=
  ⟨⟨by with_unfolding_all decide, by decide⟩,
   C10_bg_passthrough "blue" (by with_unfolding_all decide) cmNone 4 4
     (by decide) (by decide)⟩

/-- Helper: a canvas-construction error propagates out of
`generate_algorithmic_art` unchanged for every known pattern id (each dict
entry constructs the canvas first). -/
theorem generate_canvas_error (piQ : ℚ) (cf sf qf : ℚ → ℚ)
    (cm : String → Option Color) (rg : RandomSource) (p : String) (size : ℤ)
    (ps : Params) (hp : p ∈ validPatternIds) (e : GenError)
    (hc : mkCanvasBg cm size size (ps.bg_color.getD "#FFFFFF") = .error e) :
    generate_algorithmic_art piQ cf sf qf cm rg p size ps = .error e := by
  unfold generate_algorithmic_art
  rw [if_pos hp]
  rw [hc]
  rfl

/-- Helper: with a default background and a non-negative size, canvas
construction yields the white background. -/
theorem mkCanvas_white (cm : String → Option Color) (w h : ℤ)
    (hw : ¬ w < 0) (hh : ¬ h < 0) :
    mkCanvasBg cm w h "#FFFFFF" = .ok (255, 255, 255) := by
  unfold mkCanvasBg
  rw [show bgResolve "#FFFFFF" = .ok (BgColor.rgb (255, 255, 255)) by
    with_unfolding_all rfl]
  simp only [Bind.bind, Except.bind]
  rw [if_neg (not_or.mpr ⟨hw, hh⟩)]

/-- Helper: with a default background and a negative size, canvas
construction fails with the image library's size `ValueError`. -/
theorem mkCanvas_neg (cm : String → Option Color) (w h : ℤ) (hw : w < 0) :
    mkCanvasBg cm w h "#FFFFFF" = .error .imageSizeValueError := by
  unfold mkCanvasBg
  rw [show bgResolve "#FFFFFF" = .ok (BgColor.rgb (255, 255, 255)) by
    with_unfolding_all rfl]
  simp only [Bind.bind, Except.bind]
  rw [if_pos (Or.inl hw)]

/-- C3 (counterexample): `generate("spirograph", 256, r=0)` does not raise a
`ParameterError` (no such class exists in the code); it dies with the
unclassified arithmetic fault `ZeroDivisionError` from `(R - r) / r`. -/
theorem C3_counterexample : c3call = .error .zeroDivisionError := by
  with_unfolding_all rfl

/-- C3 (amended): for every non-negative size, `generate("spirograph", size,
r=0)` with the default `rotations = 20` raises `ZeroDivisionError` from the
division `(R - r) / r` on the first loop iteration — the degenerate wheel
radius is not rejected up front. -/
theorem C3_amended (piQ : ℚ) (cf sf qf : ℚ → ℚ) (cm : String → Option Color)
    (rg : RandomSource) (size : ℤ) (hsz : ¬ size < 0) :
    generate_algorithmic_art piQ cf sf qf cm rg "spirograph" size {r := some 0} =
      .error .zeroDivisionError := by
  have h1 : generate_algorithmic_art piQ cf sf qf cm rg "spirograph" size {r := some 0} =
      Except.bind (mkCanvasBg cm size size "#FFFFFF") (fun bg =>
        Except.map (mkRaster size size bg)
          (spirograph piQ cf sf size size 200 0 80 20)) := by
    with_unfolding_all rfl
  rw [h1, mkCanvas_white cm size size hsz hsz]
  with_unfolding_all rfl

/-- C3 witness at the spec's concrete size 256. -/
theorem C3_amended_witness :
    ¬ (256 : ℤ) < 0 ∧
    generate_algorithmic_art 0 zeroF zeroF zeroF cmNone rngZero "spirograph" 256
        {r := some 0} = .error .zeroDivisionError :=
  ⟨by decide, C3_amended 0 zeroF zeroF zeroF cmNone rngZero 256 (by decide)⟩

/-- C6 (counterexample): `generate("concentric_circles", 0)` does not fail:
the constructor performs no size validation, Pillow accepts a 0×0 image,
and the call returns an (empty) raster. -/
theorem C6_counterexample : isOkE c6call = true := by
  with_unfolding_all rfl

/-- C6 (amended): there is no `ParameterError`; a size-0 canvas is accepted
silently (see the counterexample), and only a negative size fails — with the
image library's `ValueError` raised by `Image.new` at canvas construction,
before any pattern drawing, for every catalog pattern. -/
theorem C6_amended (pid : String) (hpid : pid ∈ validPatternIds) (piQ : ℚ)
    (cf sf qf : ℚ → ℚ) (cm : String → Option Color) (rg : RandomSource)
    (size : ℤ) (hneg : size < 0) :
    generate_algorithmic_art piQ cf sf qf cm rg pid size {} =
      .error .imageSizeValueError := by
  apply generate_canvas_error piQ cf sf qf cm rg pid size {} hpid
  show mkCanvasBg cm size size "#FFFFFF" = .error .imageSizeValueError
  exact mkCanvas_neg cm size size hneg

/-- C6 witness: a negative size on one catalog pattern. -/
theorem C6_amended_witness :
    ("mandelbrot_set" ∈ validPatternIds ∧ (-3 : ℤ) < 0) ∧
    generate_algorithmic_art 0 zeroF zeroF zeroF cmNone rngZero
        "mandelbrot_set" (-3) {} = .error .imageSizeValueError :=
  ⟨⟨by decide, by decide⟩,
   C6_amended "mandelbrot_set" (by decide) 0 zeroF zeroF zeroF cmNone rngZero
     (-3) (by decide)⟩

/-- C7: `generate("concentric_circles", size, num_circles=0)` succeeds for
every positive size and every pixel keeps the white background colour — the
descending loop `range(0, 0, -1)` is empty, so no division by `num_circles`
runs and nothing is drawn. -/
theorem C7_zero_circles (piQ : ℚ) (cf sf qf : ℚ → ℚ)
    (cm : String → Option Color) (rg : RandomSource) (size : ℤ)
    (hpos : 0 < size) (x y : ℤ) :
    isOkE (generate_algorithmic_art piQ cf sf qf cm rg "concentric_circles"
      size {num_circles := some 0}) = true ∧
    pixAt (generate_algorithmic_art piQ cf sf qf cm rg "concentric_circles"
      size {num_circles := some 0}) x y = (255, 255, 255) := by
  have h1 : generate_algorithmic_art piQ cf sf qf cm rg "concentric_circles"
      size {num_circles := some 0} =
      Except.bind (mkCanvasBg cm size size "#FFFFFF") (fun bg =>
        Except.map (mkRaster size size bg)
          (concentric_circles size size 0 "rainbow" "#FF0000")) := by
    with_unfolding_all rfl
  have hops : concentric_circles size size 0 "rainbow" "#FF0000" = .ok [] := by
    with_unfolding_all rfl
  have hsz : ¬ size < 0 := by omega
  rw [h1, mkCanvas_white cm size size hsz hsz, hops]
  exact ⟨rfl, rfl⟩

/-- C7 witness at the spec's size 256 and an arbitrary pixel. -/
theorem C7_zero_circles_witness :
    (0 : ℤ) < 256 ∧
    (isOkE (generate_algorithmic_art 0 zeroF zeroF zeroF cmNone rngZero
      "concentric_circles" 256 {num_circles := some 0}) = true ∧
     pixAt (generate_algorithmic_art 0 zeroF zeroF zeroF cmNone rngZero
      "concentric_circles" 256 {num_circles := some 0}) 7 9 = (255, 255, 255)) :=
  ⟨by decide, C7_zero_circles 0 zeroF zeroF zeroF cmNone rngZero 256 (by decide) 7 9⟩

/-- Helper: a fold whose step fixes the initial accumulator never moves. -/
theorem foldl_fixed {α β : Type} (g : α → β → α) (init : α)
    (hg : ∀ b, g init b = init) : ∀ l : List β, l.foldl g init = init
  | [] => rfl
  | b :: l => by rw [List.foldl_cons, hg b]; exact foldl_fixed g init hg l

/-- Helper: `mapM` over a nonempty list of a function that always fails
fails with that error. -/
theorem mapM_const_error {α β : Type} (f : α → Except GenError β) (e : GenError)
    (hf : ∀ a, f a = .error e) :
    ∀ l : List α, l ≠ [] → l.mapM f = .error e := by
  intro l hl
  cases l with
  | nil => exact absurd rfl hl
  | cons a as =>
      rw [List.mapM_cons, hf a]
      rfl

/-- Helper: a Python `range(a, b)` with `a < b` is nonempty. -/
theorem intRange_ne_nil (a b : ℤ) (h : a < b) : intRange a b ≠ [] := by
  intro he
  have hn : (b - a).toNat ≠ 0 := by omega
  rcases Nat.exists_eq_succ_of_ne_zero hn with ⟨m, hm⟩
  rw [intRange, hm, List.range_succ_eq_map] at he
  simp at he

/-- Helper: with zero walkers the random walk draws nothing. -/
theorem random_walk_zero (rg : RandomSource) (w h st : ℤ) :
    random_walk rg w h 0 st = [] := by
  unfold random_walk
  show (List.foldl (fun acc s => walkStep rg w h 0 s acc)
      (([], []) : List (ℤ × ℤ) × List DrawOp) (List.range st.toNat)).2 = []
  rw [foldl_fixed _ _ (fun s => rfl)]

/-- Helper: with zero seed points, the first Voronoi pixel lookup
`colors[closest_seed]` hits the empty colour list. -/
theorem voronoi_zero (rg : RandomSource) (w h : ℤ) (bg : Color)
    (hw : 0 < w) (hh : 0 < h) :
    voronoi_diagram rg w h 0 bg = .error .indexError := by
  have houter : (intRange 0 w).mapM (fun _ : ℤ => (intRange 0 h).mapM
      (fun _ : ℤ => (Except.error GenError.indexError : Except GenError Color))) =
      (Except.error GenError.indexError :
        Except GenError (List (List Color))) := by
    apply mapM_const_error _ _ _ _ (intRange_ne_nil 0 w hw)
    intro x
    apply mapM_const_error _ _ _ _ (intRange_ne_nil 0 h hh)
    intro y
    rfl
  show Except.bind ((intRange 0 w).mapM (fun _ : ℤ => (intRange 0 h).mapM
      (fun _ : ℤ => (Except.error GenError.indexError : Except GenError Color)))) _ =
    Except.error GenError.indexError
  rw [houter]
  rfl

/-- Helper: with zero wave sources the amplitude normalisation divides by
`2 * 0` on the first pixel. -/
theorem wave_zero (piQ : ℚ) (sf qf : ℚ → ℚ) (rg : RandomSource) (w h : ℤ)
    (bg : Color) (hw : 0 < w) (hh : 0 < h) :
    wave_interference piQ sf qf rg w h 0 bg = .error .zeroDivisionError := by
  have houter : (intRange 0 w).mapM (fun x : ℤ => (intRange 0 h).mapM
      (fun y : ℤ => wavePixel piQ sf qf [] 0 x y)) =
      (Except.error GenError.zeroDivisionError :
        Except GenError (List (List Color))) := by
    apply mapM_const_error _ _ _ _ (intRange_ne_nil 0 w hw)
    intro x
    apply mapM_const_error _ _ _ _ (intRange_ne_nil 0 h hh)
    intro y
    with_unfolding_all rfl
  show Except.bind ((intRange 0 w).mapM (fun x : ℤ => (intRange 0 h).mapM
      (fun y : ℤ => wavePixel piQ sf qf [] 0 x y))) _ =
    Except.error GenError.zeroDivisionError
  rw [houter]
  rfl

/-- C5 (counterexample): `generate("voronoi_diagram", 1, num_points=0)` does
not complete — the pixel loop indexes `colors[0]` into the empty colour
list and dies with `IndexError`. -/
theorem C5_counterexample : c5call = .error .indexError := by
  with_unfolding_all rfl

/-- C5 (amended): of the three zero-count degenerate cases only
`random_walk` with `num_walkers = 0` is safe (its per-walker loop body,
including the hue division, never runs, and the background raster is
returned); `voronoi_diagram` with `num_points = 0` indexes into an empty
colour list (`IndexError`) and `wave_interference` with `num_sources = 0`
divides by `2 * num_sources = 0` (`ZeroDivisionError`), for every positive
size. -/
theorem C5_amended (piQ : ℚ) (cf sf qf : ℚ → ℚ) (cm : String → Option Color)
    (rg : RandomSource) (size st : ℤ) (hpos : 0 < size) :
    (isOkE (generate_algorithmic_art piQ cf sf qf cm rg "random_walk" size
        {num_walkers := some 0, steps := some st}) = true ∧
     ∀ x y : ℤ, pixAt (generate_algorithmic_art piQ cf sf qf cm rg "random_walk"
        size {num_walkers := some 0, steps := some st}) x y = (255, 255, 255)) ∧
    generate_algorithmic_art piQ cf sf qf cm rg "voronoi_diagram" size
        {num_points := some 0} = .error .indexError ∧
    generate_algorithmic_art piQ cf sf qf cm rg "wave_interference" size
        {num_sources := some 0} = .error .zeroDivisionError := by
  have hsz : ¬ size < 0 := by omega
  have hwalk : generate_algorithmic_art piQ cf sf qf cm rg "random_walk" size
      {num_walkers := some 0, steps := some st} =
      Except.bind (mkCanvasBg cm size size "#FFFFFF") (fun bg =>
        Except.ok (mkRaster size size bg (random_walk rg size size 0 st))) := by
    with_unfolding_all rfl
  have hvor : generate_algorithmic_art piQ cf sf qf cm rg "voronoi_diagram" size
      {num_points := some 0} =
      Except.bind (mkCanvasBg cm size size "#FFFFFF") (fun bg =>
        voronoi_diagram rg size size 0 bg) := by
    with_unfolding_all rfl
  have hwave : generate_algorithmic_art piQ cf sf qf cm rg "wave_interference" size
      {num_sources := some 0} =
      Except.bind (mkCanvasBg cm size size "#FFFFFF") (fun bg =>
        wave_interference piQ sf qf rg size size 0 bg) := by
    with_unfolding_all rfl
  refine ⟨⟨?_, ?_⟩, ?_, ?_⟩
  · rw [hwalk, mkCanvas_white cm size size hsz hsz]
    rfl
  · intro x y
    rw [hwalk, mkCanvas_white cm size size hsz hsz, random_walk_zero rg size size st]
    rfl
  · rw [hvor, mkCanvas_white cm size size hsz hsz]
    show voronoi_diagram rg size size 0 (255, 255, 255) = .error .indexError
    exact voronoi_zero rg size size (255, 255, 255) hpos hpos
  · rw [hwave, mkCanvas_white cm size size hsz hsz]
    show wave_interference piQ sf qf rg size size 0 (255, 255, 255) =
      .error .zeroDivisionError
    exact wave_zero piQ sf qf rg size size (255, 255, 255) hpos hpos

/-- C5 witness at size 2 with 7 walk steps. -/
theorem C5_amended_witness :
    (0 : ℤ) < 2 ∧
    ((isOkE (generate_algorithmic_art 0 zeroF zeroF zeroF cmNone rngZero
        "random_walk" 2 {num_walkers := some 0, steps := some 7}) = true ∧
      ∀ x y : ℤ, pixAt (generate_algorithmic_art 0 zeroF zeroF zeroF cmNone rngZero
        "random_walk" 2 {num_walkers := some 0, steps := some 7}) x y = (255, 255, 255)) ∧
     generate_algorithmic_art 0 zeroF zeroF zeroF cmNone rngZero "voronoi_diagram" 2
        {num_points := some 0} = .error .indexError ∧
     generate_algorithmic_art 0 zeroF zeroF zeroF cmNone rngZero "wave_interference" 2
        {num_sources := some 0} = .error .zeroDivisionError) :=
  ⟨by decide, C5_amended 0 zeroF zeroF zeroF cmNone rngZero 2 7 (by decide)⟩

/-- C1 (counterexample): `hexagonal_grid` is not free of randomness — two
calls differing only in the state of the global `random.random()` stream
give different rasters (the hexagon covering pixel (0,0) is painted with a
random hue), so byte-identical repeatability fails for it. -/
theorem C1_counterexample : hexCallA ≠ hexCallB := by
  intro h
  have h2 : pixAt hexCallA 0 0 = pixAt hexCallB 0 0 := by rw [h]
  rw [show pixAt hexCallA 0 0 = (229, 68, 68) by with_unfolding_all rfl,
      show pixAt hexCallB 0 0 = (68, 229, 229) by with_unfolding_all rfl] at h2
  exact absurd h2 (by decide)

/-- Helper: dispatch reduction for `concentric_circles` — the arm never
consults the random source. -/
theorem gen_red_concentric (piQ : ℚ) (cf sf qf : ℚ → ℚ)
    (cm : String → Option Color) (rg : RandomSource) (size : ℤ) (ps : Params) :
    generate_algorithmic_art piQ cf sf qf cm rg "concentric_circles" size ps =
      Except.bind (mkCanvasBg cm size size (ps.bg_color.getD "#FFFFFF")) (fun bg =>
        Except.map (mkRaster size size bg)
          (concentric_circles size size (ps.num_circles.getD 20)
            (ps.color_scheme.getD "rainbow") (ps.base_color.getD "#FF0000"))) := by
  with_unfolding_all rfl

/-- Helper: dispatch reduction for `spiral_circles` — no random source. -/
theorem gen_red_spiral (piQ : ℚ) (cf sf qf : ℚ → ℚ)
    (cm : String → Option Color) (rg : RandomSource) (size : ℤ) (ps : Params) :
    generate_algorithmic_art piQ cf sf qf cm rg "spiral_circles" size ps =
      Except.bind (mkCanvasBg cm size size (ps.bg_color.getD "#FFFFFF")) (fun bg =>
        Except.ok (mkRaster size size bg
          (spiral_circles piQ cf sf size size (ps.num_circles.getD 50)
            (ps.turns.getD 3)))) := by
  with_unfolding_all rfl

/-- Helper: dispatch reduction for `mandelbrot_set` — no random source. -/
theorem gen_red_mandel (piQ : ℚ) (cf sf qf : ℚ → ℚ)
    (cm : String → Option Color) (rg : RandomSource) (size : ℤ) (ps : Params) :
    generate_algorithmic_art piQ cf sf qf cm rg "mandelbrot_set" size ps =
      Except.bind (mkCanvasBg cm size size (ps.bg_color.getD "#FFFFFF")) (fun bg =>
        Except.ok (mandelbrot_set size size (ps.max_iter.getD 100) bg)) := by
  with_unfolding_all rfl

/-- Helper: dispatch reduction for `recursive_tree` — no random source. -/
theorem gen_red_tree (piQ : ℚ) (cf sf qf : ℚ → ℚ)
    (cm : String → Option Color) (rg : RandomSource) (size : ℤ) (ps : Params) :
    generate_algorithmic_art piQ cf sf qf cm rg "recursive_tree" size ps =
      Except.bind (mkCanvasBg cm size size (ps.bg_color.getD "#FFFFFF")) (fun bg =>
        Except.ok (mkRaster size size bg
          (recursive_tree piQ cf sf size size (ps.depth.getD 10)
            (ps.angle.getD 25)))) := by
  with_unfolding_all rfl

/-- Helper: dispatch reduction for `spirograph` — no random source. -/
theorem gen_red_spiro (piQ : ℚ) (cf sf qf : ℚ → ℚ)
    (cm : String → Option Color) (rg : RandomSource) (size : ℤ) (ps : Params) :
    generate_algorithmic_art piQ cf sf qf cm rg "spirograph" size ps =
      Except.bind (mkCanvasBg cm size size (ps.bg_color.getD "#FFFFFF")) (fun bg =>
        Except.map (mkRaster size size bg)
          (spirograph piQ cf sf size size (ps.R.getD 200) (ps.r.getD 50)
            (ps.d.getD 80) (ps.rotations.getD 20))) := by
  with_unfolding_all rfl

/-- C1 (amended): determinism holds for the five genuinely random-free
generators — concentric_circles, spiral_circles, mandelbrot_set,
recursive_tree and spirograph: for any fixed pattern of these, size,
parameter bag and float-library behaviour, the result is independent of the
global random stream, so two calls give byte-identical rasters.
hexagonal_grid must be excluded (see the counterexample). -/
theorem C1_deterministic (p : String)
    (hp : p ∈ ["concentric_circles", "spiral_circles", "mandelbrot_set",
               "recursive_tree", "spirograph"])
    (piQ : ℚ) (cf sf qf : ℚ → ℚ) (cm : String → Option Color) (size : ℤ)
    (ps : Params) (rg1 rg2 : RandomSource) :
    generate_algorithmic_art piQ cf sf qf cm rg1 p size ps =
      generate_algorithmic_art piQ cf sf qf cm rg2 p size ps := by
  fin_cases hp
  · rw [gen_red_concentric piQ cf sf qf cm rg1 size ps,
        gen_red_concentric piQ cf sf qf cm rg2 size ps]
  · rw [gen_red_spiral piQ cf sf qf cm rg1 size ps,
        gen_red_spiral piQ cf sf qf cm rg2 size ps]
  · rw [gen_red_mandel piQ cf sf qf cm rg1 size ps,
        gen_red_mandel piQ cf sf qf cm rg2 size ps]
  · rw [gen_red_tree piQ cf sf qf cm rg1 size ps,
        gen_red_tree piQ cf sf qf cm rg2 size ps]
  · rw [gen_red_spiro piQ cf sf qf cm rg1 size ps,
        gen_red_spiro piQ cf sf qf cm rg2 size ps]

/-- C1 witness: the spirograph pattern with two different random sources. -/
theorem C1_deterministic_witness :
    "spirograph" ∈ ["concentric_circles", "spiral_circles", "mandelbrot_set",
                    "recursive_tree", "spirograph"] ∧
    generate_algorithmic_art 0 zeroF zeroF zeroF cmNone rngZero "spirograph" 8 {} =
      generate_algorithmic_art 0 zeroF zeroF zeroF cmNone rngHalf "spirograph" 8 {} :=
  ⟨by decide,
   C1_deterministic "spirograph" (by decide) 0 zeroF zeroF zeroF cmNone 8 {}
     rngZero rngHalf⟩

/-- Helper: for `c = 1/80` (the plane point of pixel (45,32) at size 64)
the real orbit stays in `[0, 1/2]`, so the escape loop always runs to its
fuel. -/
theorem mandelIter_bounded (n : ℕ) : ∀ z : ℚ × ℚ, z.2 = 0 → 0 ≤ z.1 →
    z.1 ≤ 1/2 → mandelIter (1/80, 0) z n = n := by
  induction n with
  | zero => intro z _ _ _; rfl
  | succ n ih =>
      intro z hz2 hz0 hz1
      have hns : normSq z ≤ 4 := by
        unfold normSq
        rw [hz2]
        nlinarith
      rw [show mandelIter (1/80, 0) z (n + 1) =
          (if normSq z ≤ 4 then mandelIter (1/80, 0) (mstep (1/80, 0) z) n + 1
           else 0) from rfl]
      rw [if_pos hns]
      have h2 : (mstep (1/80, 0) z).2 = 0 := by
        unfold mstep
        simp [hz2]
      have h0 : 0 ≤ (mstep (1/80, 0) z).1 := by
        unfold mstep
        simp only []
        nlinarith
      have h1 : (mstep (1/80, 0) z).1 ≤ 1/2 := by
        unfold mstep
        simp only []
        nlinarith
      rw [ih _ h2 h0 h1]

/-- C8: in `generate("mandelbrot_set", 64, max_iter=20)` every in-bounds
pixel whose escape iteration reaches `max_iter` is painted black, every
escaping pixel is painted with hue = iteration / max_iter, the call
succeeds, and concretely pixel (45,32) (plane point c = 1/80, inside the
set) is pure black while pixel (0,0) (plane point −14/5 − 2i, escaping
after one iteration) is not black. -/
theorem C8_mandelbrot (x y : ℤ) (hx0 : 0 ≤ x) (hx : x < 64) (hy0 : 0 ≤ y)
    (hy : y < 64) :
    (mandelIter (mandelC 64 64 x y) (0, 0) 20 = 20 →
       pixAt mandelCall x y = (0, 0, 0)) ∧
    (mandelIter (mandelC 64 64 x y) (0, 0) 20 ≠ 20 →
       pixAt mandelCall x y =
         hsvColor ((mandelIter (mandelC 64 64 x y) (0, 0) 20 : ℚ) / 20)
           (4/5) (9/10)) ∧
    isOkE mandelCall = true ∧
    pixAt mandelCall 45 32 = (0, 0, 0) ∧
    pixAt mandelCall 0 0 ≠ (0, 0, 0) := by
  have hpix : ∀ a b : ℤ, pixAt mandelCall a b =
      if 0 ≤ a ∧ a < 64 ∧ 0 ≤ b ∧ b < 64 then mandelColor 64 64 20 a b
      else (255, 255, 255) := by
    intro a b
    with_unfolding_all rfl
  have hcol : ∀ a b : ℤ, mandelColor 64 64 20 a b =
      if ((mandelIter (mandelC 64 64 a b) (0, 0) 20 : ℕ) : ℤ) = 20
      then ((0, 0, 0) : Color)
      else hsvColor ((mandelIter (mandelC 64 64 a b) (0, 0) 20 : ℚ) / 20)
        (4/5) (9/10) := by
    intro a b
    with_unfolding_all rfl
  refine ⟨?_, ?_, by with_unfolding_all rfl, ?_, ?_⟩
  · intro h20
    rw [hpix x y, if_pos ⟨hx0, hx, hy0, hy⟩, hcol x y, h20]
    rw [if_pos (by norm_num)]
  · intro hne
    rw [hpix x y, if_pos ⟨hx0, hx, hy0, hy⟩, hcol x y,
      if_neg (by exact_mod_cast hne)]
  · rw [hpix 45 32, if_pos (by norm_num), hcol 45 32,
      show mandelC 64 64 45 32 = (1/80, 0) by with_unfolding_all rfl,
      mandelIter_bounded 20 (0, 0) rfl (le_refl 0) (by norm_num)]
    rw [if_pos (by norm_num)]
  · rw [hpix 0 0, if_pos (by norm_num)]
    rw [show mandelColor 64 64 20 0 0 = (229, 100, 45) by with_unfolding_all rfl]
    decide

/-- C8 witness at the interior pixel (45,32). -/
theorem C8_mandelbrot_witness :
    ((0 : ℤ) ≤ 45 ∧ (45 : ℤ) < 64 ∧ (0 : ℤ) ≤ 32 ∧ (32 : ℤ) < 64) ∧
    ((mandelIter (mandelC 64 64 45 32) (0, 0) 20 = 20 →
        pixAt mandelCall 45 32 = (0, 0, 0)) ∧
     (mandelIter (mandelC 64 64 45 32) (0, 0) 20 ≠ 20 →
        pixAt mandelCall 45 32 =
          hsvColor ((mandelIter (mandelC 64 64 45 32) (0, 0) 20 : ℚ) / 20)
            (4/5) (9/10)) ∧
     isOkE mandelCall = true ∧
     pixAt mandelCall 45 32 = (0, 0, 0) ∧
     pixAt mandelCall 0 0 ≠ (0, 0, 0)) :=
  ⟨⟨by decide, by decide, by decide, by decide⟩,
   C8_mandelbrot 45 32 (by decide) (by decide) (by decide) (by decide)⟩
